import Mathlib

/-!
Verification of the JSON-RPC 2.0 engine and HTTP transport of the
hal-simplicity daemon (`src/daemon/jsonrpc/mod.rs` and `src/daemon/mod.rs`).

Embedding conventions:
* `Json` embeds `serde_json::Value` (numbers as `Int`; the claims under
  study never exercise fractional numbers).
* The textual JSON-syntax parse performed inside `serde_json::from_str`
  is abstracted as the input `Option Json`: `none` is a string that is
  not syntactically valid JSON, `some v` is a string whose JSON parse is
  `v`.  The typed (serde) deserialization of a parsed value into
  `RpcRequest` / `Vec<RpcRequest>` is embedded explicitly as
  `decodeRequest` / `decodeRequestList`.
* `serde_json::to_string` on the response types of this program never
  fails (they contain only strings, integers and `Json` values), so its
  embedding returns `Except.ok` of a deterministic rendering; the
  `Result` type is kept so that the `unwrap_or_else` / `expect` call
  sites of the source are embedded faithfully.  A Rust panic (`unwrap`
  or `expect` on an `Err`) is embedded as `Option.none` in the result of
  `handle_raw` / `handle_request`.
* `handle_single` additionally returns the list of handler invocations
  it performs (method and params of each call), so that "the handler is
  invoked exactly once" is expressible; the first component is exactly
  the `Option<RpcResponse>` of the source.
-/

/-- Embedding of `serde_json::Value`. -/
inductive Json where
  | null : Json
  | bool : Bool → Json
  | num : Int → Json
  | str : String → Json
  | arr : List Json → Json
  | obj : List (String × Json) → Json

/-- Hex digit used when escaping control characters, lowercase as in serde_json. -/
def hexDigit (n : Nat) : String :=
  if n < 10 then toString n else Char.toString (Char.ofNat (87 + n))

/-- Escaping of one character inside a JSON string literal, as serde_json does. -/
def escapeChar (c : Char) : String :=
  if c = '"' then "\\\""
  else if c = '\\' then "\\\\"
  else if c = Char.ofNat 8 then "\\b"
  else if c = Char.ofNat 12 then "\\f"
  else if c = '\n' then "\\n"
  else if c = '\r' then "\\r"
  else if c = '\t' then "\\t"
  else if c.toNat < 32 then "\\u00" ++ hexDigit (c.toNat / 16) ++ hexDigit (c.toNat % 16)
  else Char.toString c

/-- Escaping of a JSON string body. -/
def escapeString (s : String) : String :=
  String.join (s.data.map escapeChar)

mutual

/-- Compact rendering of a JSON value, as `serde_json::to_string` emits it. -/
def Json.render : Json → String
  | Json.null => "null"
  | Json.bool true => "true"
  | Json.bool false => "false"
  | Json.num n => toString n
  | Json.str s => "\"" ++ escapeString s ++ "\""
  | Json.arr l => "[" ++ renderElems l ++ "]"
  | Json.obj l => "\x7b" ++ renderMembers l ++ "\x7d"

/-- Comma-separated rendering of array elements. -/
def renderElems : List Json → String
  | [] => ""
  | [v] => Json.render v
  | v :: rest => Json.render v ++ "," ++ renderElems rest

/-- Comma-separated rendering of object members. -/
def renderMembers : List (String × Json) → String
  | [] => ""
  | [(k, v)] => "\"" ++ escapeString k ++ "\":" ++ Json.render v
  | (k, v) :: rest =>
      "\"" ++ escapeString k ++ "\":" ++ Json.render v ++ "," ++ renderMembers rest

end

/-- Embedding of `ErrorCode` (five reserved JSON-RPC 2.0 codes). -/
inductive ErrorCode where
  | ParseError : ErrorCode
  | InvalidRequest : ErrorCode
  | MethodNotFound : ErrorCode
  | InvalidParams : ErrorCode
  | InternalError : ErrorCode

/-- Embedding of `ErrorCode::code`. -/
def ErrorCode.code : ErrorCode → Int
  | ErrorCode.ParseError => -32700
  | ErrorCode.InvalidRequest => -32600
  | ErrorCode.MethodNotFound => -32601
  | ErrorCode.InvalidParams => -32602
  | ErrorCode.InternalError => -32603

/-- Embedding of `ErrorCode::message`. -/
def ErrorCode.message : ErrorCode → String
  | ErrorCode.ParseError => "Parse error"
  | ErrorCode.InvalidRequest => "Invalid Request"
  | ErrorCode.MethodNotFound => "Method not found"
  | ErrorCode.InvalidParams => "Invalid params"
  | ErrorCode.InternalError => "Internal error"

/-- Embedding of the `RpcError` struct. -/
structure RpcError where
  code : Int
  message : String
  data : Option Json

/-- Embedding of `RpcError::new`. -/
def RpcError.new (error_code : ErrorCode) : RpcError :=
  { code := error_code.code, message := error_code.message, data := none }

/-- Embedding of `RpcError::with_data`. -/
def RpcError.with_data (e : RpcError) (d : Json) : RpcError :=
  { e with data := some d }

/-- Embedding of `RpcError::custom`. -/
def RpcError.custom (code : Int) (message : String) : RpcError :=
  { code := code, message := message, data := none }

/-- Embedding of the `RpcRequest` struct. -/
structure RpcRequest where
  jsonrpc : String
  method : String
  params : Option Json
  id : Option Json

/-- Embedding of `RpcRequest::is_notification`. -/
def RpcRequest.is_notification (r : RpcRequest) : Bool :=
  r.id.isNone

/-- Embedding of `RpcRequest::validate`. -/
def RpcRequest.validate (r : RpcRequest) : Except RpcError Unit :=
  if r.jsonrpc ≠ "2.0" then
    Except.error ((RpcError.new ErrorCode.InvalidRequest).with_data
      (Json.str "jsonrpc field must be \u00272.0\u0027"))
  else if r.method.isEmpty then
    Except.error ((RpcError.new ErrorCode.InvalidRequest).with_data
      (Json.str "method field cannot be empty"))
  else
    Except.ok ()

/-- Embedding of the `RpcResponse` struct. -/
structure RpcResponse where
  jsonrpc : String
  result : Option Json
  error : Option RpcError
  id : Json

/-- Embedding of `RpcResponse::success`. -/
def RpcResponse.success (result : Json) (id : Json) : RpcResponse :=
  { jsonrpc := "2.0", result := some result, error := none, id := id }

/-- Embedding of `RpcResponse::error` (named `ofError` here because `error`
is already the field name). -/
def RpcResponse.ofError (error : RpcError) (id : Json) : RpcResponse :=
  { jsonrpc := "2.0", result := none, error := some error, id := id }

/-- Serde serialization of `RpcError` (fields in declaration order, `data`
skipped when `None`, per `skip_serializing_if`). -/
def RpcError.toJson (e : RpcError) : Json :=
  Json.obj ([("code", Json.num e.code), ("message", Json.str e.message)] ++
    (match e.data with
     | some d => [("data", d)]
     | none => []))

/-- Serde serialization of `RpcResponse` (fields in declaration order,
`result` and `error` skipped when `None`). -/
def RpcResponse.toJson (r : RpcResponse) : Json :=
  Json.obj ([("jsonrpc", Json.str r.jsonrpc)] ++
    (match r.result with
     | some v => [("result", v)]
     | none => []) ++
    (match r.error with
     | some e => [("error", e.toJson)]
     | none => []) ++
    [("id", r.id)])

/-- Embedding of `serde_json::to_string` on an `RpcResponse`: on the types of
this program serde serialization always succeeds, so this always returns
`Except.ok`; the `Except` wrapper keeps the source's `Result` call sites. -/
def serializeResponse (r : RpcResponse) : Except Unit String :=
  Except.ok r.toJson.render

/-- Lookup of a field in a parsed JSON object (first occurrence). -/
def getField (l : List (String × Json)) (k : String) : Option Json :=
  match l with
  | [] => none
  | (k', v) :: rest => if k' = k then some v else getField rest k

/-- Serde deserialization of an `Option<Value>` struct field: an absent field
and an explicit `null` both give `None`; any other value gives `Some`. -/
def getOptField (l : List (String × Json)) (k : String) : Option Json :=
  match getField l k with
  | none => none
  | some Json.null => none
  | some v => some v

/-- Serde deserialization of a parsed JSON value into `RpcRequest`
(`serde_json::from_str::<RpcRequest>` after the syntax parse): requires an
object with string fields `jsonrpc` and `method`; `params` and `id` are
optional; unknown fields are ignored (serde default). -/
def decodeRequest : Json → Option RpcRequest
  | Json.obj l =>
      match getField l "jsonrpc", getField l "method" with
      | some (Json.str j), some (Json.str m) =>
          some { jsonrpc := j, method := m,
                 params := getOptField l "params", id := getOptField l "id" }
      | _, _ => none
  | _ => none

/-- Serde deserialization of a parsed JSON value into `Vec<RpcRequest>`:
an array all of whose elements decode as `RpcRequest`. -/
def decodeRequestList : Json → Option (List RpcRequest)
  | Json.arr l => l.mapM decodeRequest
  | _ => none

/-- Embedding of the `RpcCall` enum. -/
inductive RpcCall where
  | Single : RpcRequest → RpcCall
  | Batch : List RpcRequest → RpcCall

/-- Validation of a request list in order, first error aborting — the
`for request in &requests { request.validate()?; }` loop of `from_json`. -/
def validateAll : List RpcRequest → Except RpcError Unit
  | [] => Except.ok ()
  | r :: rest =>
      match r.validate with
      | Except.ok _ => validateAll rest
      | Except.error e => Except.error e

/-- Embedding of `RpcCall::from_json`.  The input is the JSON-syntax parse of
the raw text (`none` = malformed text); single-request deserialization is
tried first, then batch deserialization, exactly as the source orders the two
`serde_json::from_str` attempts. -/
def RpcCall.from_json (j : Option Json) : Except RpcError RpcCall :=
  match j with
  | none => Except.error (RpcError.new ErrorCode.ParseError)
  | some v =>
      match decodeRequest v with
      | some request =>
          (match request.validate with
           | Except.ok _ => Except.ok (RpcCall.Single request)
           | Except.error e => Except.error e)
      | none =>
          match decodeRequestList v with
          | some requests =>
              if requests.isEmpty then
                Except.error ((RpcError.new ErrorCode.InvalidRequest).with_data
                  (Json.str "batch request cannot be empty"))
              else
                (match validateAll requests with
                 | Except.ok _ => Except.ok (RpcCall.Batch requests)
                 | Except.error e => Except.error e)
          | none => Except.error (RpcError.new ErrorCode.ParseError)

/-- Embedding of the `RpcOutput` enum. -/
inductive RpcOutput where
  | Single : RpcResponse → RpcOutput
  | Batch : List RpcResponse → RpcOutput

/-- Embedding of `RpcOutput::to_json` (serde `untagged`: the wire form is the
bare object or bare array). -/
def RpcOutput.to_json : RpcOutput → Except Unit String
  | RpcOutput.Single r => Except.ok r.toJson.render
  | RpcOutput.Batch rs => Except.ok (Json.arr (rs.map RpcResponse.toJson)).render

/-- The `RpcHandler` capability: method name and optional params to result or
error. -/
def Handler : Type :=
  String → Option Json → Except RpcError Json

/-- Embedding of `JsonRpcService::handle_single`.  The first component is the
source's `Option<RpcResponse>`; the second records each invocation of the
handler (method, params), so notification semantics are observable. -/
def handle_single (h : Handler) (request : RpcRequest) :
    Option RpcResponse × List (String × Option Json) :=
  if request.is_notification then
    (none, [(request.method, request.params)])
  else
    let id := request.id.getD Json.null
    let response :=
      match h request.method request.params with
      | Except.ok result => RpcResponse.success result id
      | Except.error e => RpcResponse.ofError e id
    (some response, [(request.method, request.params)])

/-- Embedding of `JsonRpcService::handle_batch`: `filter_map` of
`handle_single` over the requests in order. -/
def handle_batch (h : Handler) (requests : List RpcRequest) : List RpcResponse :=
  requests.filterMap (fun request => (handle_single h request).1)

/-- Embedding of `Result::unwrap` / `Result::expect` on the serialization
result: `none` is a panic. -/
def exceptUnwrap : Except Unit String → Option String
  | Except.ok s => some s
  | Except.error _ => none

/-- Embedding of `JsonRpcService::handle_raw`.  Branches mirror the source:
single response serialization with `unwrap_or_else` falling back to an
`InternalError` response (itself `unwrap`ped), empty string for
notifications, batch serialization with the same fallback, and the
parse-error branch serializing the error with `expect`.  A `none` result is
a Rust panic. -/
def handle_raw (h : Handler) (j : Option Json) : Option String :=
  match RpcCall.from_json j with
  | Except.ok (RpcCall.Single request) =>
      (match (handle_single h request).1 with
       | some resp =>
           (match serializeResponse resp with
            | Except.ok s => some s
            | Except.error _ =>
                exceptUnwrap (serializeResponse
                  (RpcResponse.ofError (RpcError.new ErrorCode.InternalError) Json.null)))
       | none => some "")
  | Except.ok (RpcCall.Batch requests) =>
      let responses := handle_batch h requests
      if responses.isEmpty then
        some ""
      else
        (match (RpcOutput.Batch responses).to_json with
         | Except.ok s => some s
         | Except.error _ =>
             exceptUnwrap (serializeResponse
               (RpcResponse.ofError (RpcError.new ErrorCode.InternalError) Json.null)))
  | Except.error e =>
      exceptUnwrap (serializeResponse (RpcResponse.ofError e Json.null))

/-!
HTTP transport layer (`src/daemon/mod.rs`).  The HTTP request is embedded by
its method string, path string, and the outcome of collecting and UTF-8
decoding its body (`Except.error ()` = read failure or invalid UTF-8, both
produced by library code outside this repository).  The JSON-syntax parse of
the body text is the parameter `parse`, connecting the text handed to
`handle_raw` with the `Option Json` input of the protocol embedding.
-/

/-- Embedding of an incoming `hyper::Request`: method, path, and the outcome
of collecting + UTF-8 decoding the body. -/
structure HttpRequest where
  httpMethod : String
  path : String
  body : Except Unit String

/-- Embedding of an outgoing `hyper::Response`: status code, optional
`Content-Type` header value, and body text. -/
structure HttpResponse where
  status : Nat
  contentType : Option String
  body : String

/-- Canonical reason phrases (`StatusCode::canonical_reason`), with the
source's `unwrap_or("Unknown Error")` fallback. -/
def canonicalReason (status : Nat) : String :=
  if status = 200 then "OK"
  else if status = 204 then "No Content"
  else if status = 400 then "Bad Request"
  else if status = 404 then "Not Found"
  else if status = 405 then "Method Not Allowed"
  else "Unknown Error"

/-- Embedding of `create_status_response`. -/
def create_status_response (status : Nat) : HttpResponse :=
  { status := status,
    contentType := none,
    body := if status = 204 then "" else canonicalReason status }

/-- Embedding of `create_json_response` (status 200 is `Response::new`'s
default). -/
def create_json_response (body : String) : HttpResponse :=
  { status := 200, contentType := some "application/json", body := body }

/-- Embedding of `read_body_as_string`: a body read failure or invalid UTF-8
becomes status 400. -/
def read_body_as_string (body : Except Unit String) : Except Nat String :=
  match body with
  | Except.ok s => Except.ok s
  | Except.error _ => Except.error 400

/-- Embedding of `handle_request`: 405 for non-POST, 404 for paths other than
`/rpc` and `/`, 400 for a bad body, then `handle_raw` on the body text with an
empty result mapped to 204 and a non-empty result to a JSON 200 response.
`parse` is the JSON-syntax parse of body text; a `none` result is a panic
propagated out of `handle_raw`. -/
def handle_request (parse : String → Option Json) (h : Handler)
    (req : HttpRequest) : Option HttpResponse :=
  if req.httpMethod ≠ "POST" then
    some (create_status_response 405)
  else if req.path ≠ "/rpc" ∧ req.path ≠ "/" then
    some (create_status_response 404)
  else
    match read_body_as_string req.body with
    | Except.error status => some (create_status_response status)
    | Except.ok body_str =>
        match handle_raw h (parse body_str) with
        | none => none
        | some response_str =>
            if response_str.isEmpty then
              some (create_status_response 204)
            else
              some (create_json_response response_str)

/-!
Helper lemmas shared by the claim theorems.
-/

/-- A notification yields no response from `handle_single`. -/
theorem handle_single_fst_of_notification (h : Handler) (r : RpcRequest)
    (hn : r.is_notification = true) : (handle_single h r).1 = none := by
  simp [handle_single, hn]

/-- A non-notification always yields a response from `handle_single`. -/
theorem handle_single_fst_isSome (h : Handler) (r : RpcRequest)
    (hn : r.is_notification = false) : ((handle_single h r).1).isSome = true := by
  simp [handle_single, hn]

/-- `validateAll` returns the first failing element's error. -/
theorem validateAll_append_error (pre : List RpcRequest) (bad : RpcRequest)
    (rest : List RpcRequest) (e : RpcError)
    (hpre : ∀ p ∈ pre, p.validate = Except.ok ())
    (hbad : bad.validate = Except.error e) :
    validateAll (pre ++ bad :: rest) = Except.error e := by
  induction pre with
  | nil => simp [validateAll, hbad]
  | cons p ps ih =>
      have hp : p.validate = Except.ok () := hpre p (by simp)
      have hps : ∀ q ∈ ps, q.validate = Except.ok () := by
        intro q hq
        exact hpre q (by simp [hq])
      simp [validateAll, hp]
      exact ih hps

/-- Every member of a list accepted by `validateAll` validates. -/
theorem validateAll_ok_mem (l : List RpcRequest) (hl : validateAll l = Except.ok ()) :
    ∀ r ∈ l, r.validate = Except.ok () := by
  induction l with
  | nil => simp
  | cons p ps ih =>
      intro r hr
      rcases List.mem_cons.mp hr with hrp | hrs
      · subst hrp
        cases hv : r.validate with
        | ok u => cases u; rfl
        | error e => simp [validateAll, hv] at hl
      · cases hv : p.validate with
        | ok u =>
            cases u
            have : validateAll ps = Except.ok () := by
              simpa [validateAll, hv] using hl
            exact ih this r hrs
        | error e => simp [validateAll, hv] at hl

/-- Claim C1: for every non-notification request (id present), `handle_single`
returns a response whose id equals the request's id, with exactly one of
result/error populated — result on handler success, error on handler
failure. -/
theorem handle_single_non_notification (h : Handler) (req : RpcRequest) (v : Json)
    (hid : req.id = some v) :
    ∃ resp, (handle_single h req).1 = some resp ∧ resp.id = v ∧
      ((∃ r, h req.method req.params = Except.ok r ∧
          resp.result = some r ∧ resp.error = none) ∨
       (∃ e, h req.method req.params = Except.error e ∧
          resp.result = none ∧ resp.error = some e)) := by
  cases hH : h req.method req.params with
  | ok r =>
      refine ⟨RpcResponse.success r v, ?_, rfl, Or.inl ⟨r, rfl, rfl, rfl⟩⟩
      simp [handle_single, RpcRequest.is_notification, hid, hH]
  | error e =>
      refine ⟨RpcResponse.ofError e v, ?_, rfl, Or.inr ⟨e, rfl, rfl, rfl⟩⟩
      simp [handle_single, RpcRequest.is_notification, hid, hH]

/-- Witness for C1 at a concrete request and handler. -/
theorem handle_single_non_notification_witness :
    ∃ resp,
      (handle_single (fun _ _ => Except.ok Json.null)
        { jsonrpc := "2.0", method := "m", params := none,
          id := some (Json.num 1) }).1 = some resp ∧
      resp.id = Json.num 1 ∧
      ((∃ r, (Except.ok Json.null : Except RpcError Json) = Except.ok r ∧
          resp.result = some r ∧ resp.error = none) ∨
       (∃ e, (Except.ok Json.null : Except RpcError Json) = Except.error e ∧
          resp.result = none ∧ resp.error = some e)) :=
  handle_single_non_notification (fun _ _ => Except.ok Json.null)
    { jsonrpc := "2.0", method := "m", params := none, id := some (Json.num 1) }
    (Json.num 1) rfl

/-- Claim C4: `validate` fails with an `InvalidRequest` error carrying a
descriptive data string exactly when `jsonrpc ≠ "2.0"` or `method` is empty,
and returns `Ok` in all other cases. -/
theorem validate_spec (r : RpcRequest) :
    (r.jsonrpc = "2.0" → r.method ≠ "" → r.validate = Except.ok ()) ∧
    (r.jsonrpc ≠ "2.0" →
      r.validate = Except.error ((RpcError.new ErrorCode.InvalidRequest).with_data
        (Json.str "jsonrpc field must be \u00272.0\u0027"))) ∧
    (r.jsonrpc = "2.0" → r.method = "" →
      r.validate = Except.error ((RpcError.new ErrorCode.InvalidRequest).with_data
        (Json.str "method field cannot be empty"))) ∧
    (RpcError.new ErrorCode.InvalidRequest).code = -32600 := by
  refine ⟨?_, ?_, ?_, rfl⟩
  · intro hj hm
    have hme : r.method.isEmpty = false := by
      cases hb : r.method.isEmpty with
      | false => rfl
      | true => exact absurd ((String.isEmpty_iff r.method).mp (by simp [hb])) hm
    simp [RpcRequest.validate, hj, hme]
  · intro hj
    simp [RpcRequest.validate, hj]
  · intro hj hm
    have hme : r.method.isEmpty = true := by
      simpa [String.isEmpty_iff] using hm
    simp [RpcRequest.validate, hj, hme]

/-- Witness for C4 at concrete requests covering all three branches. -/
theorem validate_spec_witness :
    RpcRequest.validate { jsonrpc := "2.0", method := "m", params := none, id := none } =
      Except.ok () ∧
    RpcRequest.validate { jsonrpc := "1.0", method := "m", params := none, id := none } =
      Except.error ((RpcError.new ErrorCode.InvalidRequest).with_data
        (Json.str "jsonrpc field must be \u00272.0\u0027")) ∧
    RpcRequest.validate { jsonrpc := "2.0", method := "", params := none, id := none } =
      Except.error ((RpcError.new ErrorCode.InvalidRequest).with_data
        (Json.str "method field cannot be empty")) :=
  ⟨(validate_spec { jsonrpc := "2.0", method := "m", params := none, id := none }).1
      rfl (by decide),
   (validate_spec { jsonrpc := "1.0", method := "m", params := none, id := none }).2.1
      (by decide),
   (validate_spec { jsonrpc := "2.0", method := "", params := none, id := none }).2.2.1
      rfl rfl⟩

/-- Claim C6: for the empty JSON array input, `handle_raw` returns the single
serialized error response with code −32600, id null, and data "batch request
cannot be empty". -/
theorem handle_raw_empty_batch (h : Handler) :
    handle_raw h (some (Json.arr [])) =
      some ((RpcResponse.ofError ((RpcError.new ErrorCode.InvalidRequest).with_data
        (Json.str "batch request cannot be empty")) Json.null).toJson.render) ∧
    ((RpcError.new ErrorCode.InvalidRequest).with_data
      (Json.str "batch request cannot be empty")).code = -32600 ∧
    ((RpcError.new ErrorCode.InvalidRequest).with_data
      (Json.str "batch request cannot be empty")).data =
        some (Json.str "batch request cannot be empty") :=
  ⟨rfl, rfl, rfl⟩

/-- Claim C10: the well-formed JSON object `\x7b\x7d` is neither a request nor a
batch shape, so `handle_raw` answers with the ParseError code −32700 (not
InvalidRequest): the −32700 branch is not restricted to malformed JSON. -/
theorem handle_raw_wellformed_nonrequest (h : Handler) :
    RpcCall.from_json (some (Json.obj [])) =
      Except.error (RpcError.new ErrorCode.ParseError) ∧
    handle_raw h (some (Json.obj [])) =
      some ((RpcResponse.ofError (RpcError.new ErrorCode.ParseError)
        Json.null).toJson.render) ∧
    (RpcError.new ErrorCode.ParseError).code = -32700 ∧
    (RpcError.new ErrorCode.ParseError).code ≠ ErrorCode.InvalidRequest.code :=
  ⟨rfl, rfl, rfl, by decide⟩

/-- Claim C3: a batch of N requests of which M are notifications yields
exactly N−M responses, each produced by `handle_single`, in the order of
their originating non-notification requests. -/
theorem handle_batch_spec (h : Handler) (requests : List RpcRequest) :
    (handle_batch h requests).length =
      requests.length - requests.countP (fun r => r.is_notification) ∧
    handle_batch h requests =
      (requests.filter (fun r => !r.is_notification)).filterMap
        (fun r => (handle_single h r).1) ∧
    (∀ r ∈ requests, r.is_notification = false →
      ((handle_single h r).1).isSome = true) := by
  refine ⟨?_, ?_, fun r _ hn => handle_single_fst_isSome h r hn⟩
  · induction requests with
    | nil => rfl
    | cons r rest ih =>
        have hc : rest.countP (fun r => r.is_notification) ≤ rest.length :=
          List.countP_le_length _
        cases hn : r.is_notification with
        | true =>
            have h1 : (handle_single h r).1 = none :=
              handle_single_fst_of_notification h r hn
            simp [handle_batch, List.filterMap_cons, h1, List.length_cons,
              List.countP_cons, hn] at ih ⊢
            omega
        | false =>
            have h1 := handle_single_fst_isSome h r hn
            rcases Option.isSome_iff_exists.mp h1 with ⟨resp, hresp⟩
            simp [handle_batch, List.filterMap_cons, hresp, List.length_cons,
              List.countP_cons, hn] at ih ⊢
            omega
  · induction requests with
    | nil => rfl
    | cons r rest ih =>
        cases hn : r.is_notification with
        | true =>
            have h1 : (handle_single h r).1 = none :=
              handle_single_fst_of_notification h r hn
            simpa [handle_batch, List.filterMap_cons, List.filter_cons, hn, h1]
              using ih
        | false =>
            have h1 := handle_single_fst_isSome h r hn
            rcases Option.isSome_iff_exists.mp h1 with ⟨resp, hresp⟩
            simpa [handle_batch, List.filterMap_cons, List.filter_cons, hn, hresp]
              using ih

/-- Witness for C3: a concrete non-notification request yields a response. -/
theorem handle_batch_spec_witness :
    ((handle_single (fun _ _ => Except.ok Json.null)
      { jsonrpc := "2.0", method := "m", params := none,
        id := some (Json.num 7) }).1).isSome = true :=
  (handle_batch_spec (fun _ _ => Except.ok Json.null)
      [{ jsonrpc := "2.0", method := "m", params := none,
         id := some (Json.num 7) }]).2.2
    { jsonrpc := "2.0", method := "m", params := none, id := some (Json.num 7) }
    (by simp) rfl

/-- Claim C5: batch parsing is all-or-nothing — for an array input the first
element failing validation aborts `from_json` with that element's error, and
an accepted `Batch` never contains an invalid member. -/
theorem from_json_batch_atomic :
    (∀ (l : List Json) (requests pre rest : List RpcRequest) (bad : RpcRequest)
        (e : RpcError),
        decodeRequestList (Json.arr l) = some requests →
        requests = pre ++ bad :: rest →
        (∀ p ∈ pre, p.validate = Except.ok ()) →
        bad.validate = Except.error e →
        RpcCall.from_json (some (Json.arr l)) = Except.error e) ∧
    (∀ (v : Json) (requests : List RpcRequest),
        RpcCall.from_json (some v) = Except.ok (RpcCall.Batch requests) →
        ∀ r ∈ requests, r.validate = Except.ok ()) := by
  constructor
  · intro l requests pre rest bad e hdl hsplit hpre hbad
    subst hsplit
    have hdr : decodeRequest (Json.arr l) = none := rfl
    have hne : (pre ++ bad :: rest).isEmpty = false := by
      cases pre <;> rfl
    have hva : validateAll (pre ++ bad :: rest) = Except.error e :=
      validateAll_append_error pre bad rest e hpre hbad
    simp [RpcCall.from_json, hdr, hdl, hne, hva]
  · intro v requests hok r hr
    cases hdr : decodeRequest v with
    | some req =>
        cases hv : req.validate with
        | ok u => cases u; simp [RpcCall.from_json, hdr, hv] at hok
        | error e => simp [RpcCall.from_json, hdr, hv] at hok
    | none =>
        cases hdl : decodeRequestList v with
        | none => simp [RpcCall.from_json, hdr, hdl] at hok
        | some reqs =>
            cases hie : reqs.isEmpty with
            | true => simp [RpcCall.from_json, hdr, hdl, hie] at hok
            | false =>
                cases hva : validateAll reqs with
                | ok u =>
                    cases u
                    have heq : reqs = requests := by
                      simpa [RpcCall.from_json, hdr, hdl, hie, hva] using hok
                    exact validateAll_ok_mem reqs hva r (heq ▸ hr)
                | error e => simp [RpcCall.from_json, hdr, hdl, hie, hva] at hok

/-- Witness for C5: a batch whose only member has `jsonrpc` "1.0" aborts with
that member's error, and a member of an accepted batch validates. -/
theorem from_json_batch_atomic_witness :
    RpcCall.from_json (some (Json.arr
        [Json.obj [("jsonrpc", Json.str "1.0"), ("method", Json.str "m")]])) =
      Except.error ((RpcError.new ErrorCode.InvalidRequest).with_data
        (Json.str "jsonrpc field must be \u00272.0\u0027")) ∧
    RpcRequest.validate
      { jsonrpc := "2.0", method := "m", params := none,
        id := some (Json.num 1) } = Except.ok () :=
  ⟨from_json_batch_atomic.1
      [Json.obj [("jsonrpc", Json.str "1.0"), ("method", Json.str "m")]]
      [{ jsonrpc := "1.0", method := "m", params := none, id := none }]
      [] []
      { jsonrpc := "1.0", method := "m", params := none, id := none }
      ((RpcError.new ErrorCode.InvalidRequest).with_data
        (Json.str "jsonrpc field must be \u00272.0\u0027"))
      rfl rfl (by intro p hp; exact absurd hp (List.not_mem_nil p)) rfl,
   from_json_batch_atomic.2
      (Json.arr [Json.obj [("jsonrpc", Json.str "2.0"), ("method", Json.str "m"),
        ("id", Json.num 1)]])
      [{ jsonrpc := "2.0", method := "m", params := none,
         id := some (Json.num 1) }]
      rfl
      { jsonrpc := "2.0", method := "m", params := none,
        id := some (Json.num 1) }
      (by simp)⟩

/-- Claim C7: an input that is malformed JSON, or well-formed JSON that
deserializes as neither a request object nor an array of request objects,
makes `handle_raw` answer with the serialized ParseError response (code
−32700, id null, no data). -/
theorem handle_raw_parse_error (h : Handler) (j : Option Json)
    (hj : j = none ∨
      ∃ v, j = some v ∧ decodeRequest v = none ∧ decodeRequestList v = none) :
    handle_raw h j =
      some ((RpcResponse.ofError (RpcError.new ErrorCode.ParseError)
        Json.null).toJson.render) ∧
    (RpcError.new ErrorCode.ParseError).code = -32700 ∧
    (RpcError.new ErrorCode.ParseError).data = none := by
  refine ⟨?_, rfl, rfl⟩
  rcases hj with rfl | ⟨v, rfl, hdr, hdl⟩
  · rfl
  · simp [handle_raw, RpcCall.from_json, hdr, hdl, serializeResponse, exceptUnwrap]

/-- Witness for C7: a bare JSON string input takes the ParseError branch. -/
theorem handle_raw_parse_error_witness :
    handle_raw (fun _ _ => Except.ok Json.null) (some (Json.str "x")) =
      some ((RpcResponse.ofError (RpcError.new ErrorCode.ParseError)
        Json.null).toJson.render) ∧
    (RpcError.new ErrorCode.ParseError).code = -32700 ∧
    (RpcError.new ErrorCode.ParseError).data = none :=
  handle_raw_parse_error (fun _ _ => Except.ok Json.null) (some (Json.str "x"))
    (Or.inr ⟨Json.str "x", rfl, rfl, rfl⟩)

/-- Counterexample to claim C2 as stated: the notification with empty method
(id absent) is rejected by `validate`, so `handle_raw` produces the
InvalidRequest error text, not the empty string. -/
theorem notification_output_counterexample :
    (∃ req, decodeRequest (Json.obj
        [("jsonrpc", Json.str "2.0"), ("method", Json.str "")]) = some req ∧
      req.is_notification = true) ∧
    handle_raw (fun _ _ => Except.ok Json.null)
      (some (Json.obj [("jsonrpc", Json.str "2.0"), ("method", Json.str "")])) ≠
      some "" :=
  ⟨⟨{ jsonrpc := "2.0", method := "", params := none, id := none }, rfl, rfl⟩,
   by decide⟩

/-- Claim C2 (amended): for every notification, `handle_single` invokes the
handler exactly once and returns no response regardless of the handler's
outcome; `handle_raw` returns the empty string for a single notification
that deserializes and passes validation. -/
theorem handle_single_notification_spec (h : Handler) (req : RpcRequest)
    (hn : req.is_notification = true) :
    handle_single h req = (none, [(req.method, req.params)]) ∧
    (∀ j, decodeRequest j = some req → req.validate = Except.ok () →
      handle_raw h (some j) = some "") := by
  constructor
  · simp [handle_single, hn]
  · intro j hdec hval
    simp [handle_raw, RpcCall.from_json, hdec, hval, handle_single, hn]

/-- Witness for C2 (amended), with a handler that fails: the handler is
called once with the request's method and params, and the output is empty. -/
theorem handle_single_notification_spec_witness :
    handle_single (fun _ _ => Except.error (RpcError.new ErrorCode.InternalError))
      { jsonrpc := "2.0", method := "m", params := none, id := none } =
      (none, [("m", none)]) ∧
    handle_raw (fun _ _ => Except.error (RpcError.new ErrorCode.InternalError))
      (some (Json.obj [("jsonrpc", Json.str "2.0"), ("method", Json.str "m")])) =
      some "" :=
  ⟨(handle_single_notification_spec
      (fun _ _ => Except.error (RpcError.new ErrorCode.InternalError))
      { jsonrpc := "2.0", method := "m", params := none, id := none } rfl).1,
   (handle_single_notification_spec
      (fun _ _ => Except.error (RpcError.new ErrorCode.InternalError))
      { jsonrpc := "2.0", method := "m", params := none, id := none } rfl).2
     (Json.obj [("jsonrpc", Json.str "2.0"), ("method", Json.str "m")]) rfl rfl⟩

/-- Claim C8: `handle_raw` always answers — on every branch, including the
parse-error branch, serialization succeeds and no panic occurs, so a reply
string exists for every input and handler. -/
theorem handle_raw_total (h : Handler) (j : Option Json) :
    ∃ s, handle_raw h j = some s := by
  cases hfj : RpcCall.from_json j with
  | error e =>
      exact ⟨(RpcResponse.ofError e Json.null).toJson.render,
        by simp [handle_raw, hfj, serializeResponse, exceptUnwrap]⟩
  | ok c =>
      cases c with
      | Single request =>
          cases hs : (handle_single h request).1 with
          | none => exact ⟨"", by simp [handle_raw, hfj, hs]⟩
          | some resp =>
              exact ⟨resp.toJson.render,
                by simp [handle_raw, hfj, hs, serializeResponse]⟩
      | Batch requests =>
          cases hie : (handle_batch h requests).isEmpty with
          | true => exact ⟨"", by simp [handle_raw, hfj, hie]⟩
          | false =>
              exact ⟨(Json.arr ((handle_batch h requests).map
                  RpcResponse.toJson)).render,
                by simp [handle_raw, hfj, hie, RpcOutput.to_json]⟩

/-- Claim C9: `handle_request` maps a non-POST method to 405 for any body and
handler, a POST to an unknown path to 404, a bad (non-UTF-8) body to 400 for
any handler, an empty `handle_raw` result to 204 with empty body, and a
non-empty result to 200 with `Content-Type: application/json` and the result
verbatim as the body. -/
theorem handle_request_spec (parse : String → Option Json) (h : Handler)
    (req : HttpRequest) :
    (req.httpMethod ≠ "POST" →
      ∀ (h' : Handler) (b : Except Unit String),
        handle_request parse h' { req with body := b } =
          some (create_status_response 405)) ∧
    (req.httpMethod = "POST" → req.path ≠ "/rpc" → req.path ≠ "/" →
      ∀ (h' : Handler) (b : Except Unit String),
        handle_request parse h' { req with body := b } =
          some (create_status_response 404)) ∧
    (req.httpMethod = "POST" → (req.path = "/rpc" ∨ req.path = "/") →
      req.body = Except.error () →
      ∀ h' : Handler,
        handle_request parse h' req = some (create_status_response 400)) ∧
    (∀ s, req.httpMethod = "POST" → (req.path = "/rpc" ∨ req.path = "/") →
      req.body = Except.ok s → handle_raw h (parse s) = some "" →
      handle_request parse h req = some (create_status_response 204) ∧
        (create_status_response 204).body = "") ∧
    (∀ s rs, req.httpMethod = "POST" → (req.path = "/rpc" ∨ req.path = "/") →
      req.body = Except.ok s → handle_raw h (parse s) = some rs → rs ≠ "" →
      handle_request parse h req = some (create_json_response rs) ∧
        (create_json_response rs).status = 200 ∧
        (create_json_response rs).contentType = some "application/json" ∧
        (create_json_response rs).body = rs) := by
  refine ⟨?_, ?_, ?_, ?_, ?_⟩
  · intro hm h' b
    simp [handle_request, hm]
  · intro hm hp1 hp2 h' b
    simp [handle_request, hm, hp1, hp2]
  · intro hm hp hb h'
    rcases hp with hp | hp <;>
      simp [handle_request, hm, hp, read_body_as_string, hb]
  · intro s hm hp hb hraw
    refine ⟨?_, rfl⟩
    rcases hp with hp | hp <;>
      simp [handle_request, hm, hp, read_body_as_string, hb, hraw,
        show "".isEmpty = true from rfl]
  · intro s rs hm hp hb hraw hne
    have hrs : rs.isEmpty = false := by
      cases hb' : rs.isEmpty with
      | false => rfl
      | true => exact absurd ((String.isEmpty_iff rs).mp (by simp [hb'])) hne
    refine ⟨?_, rfl, rfl, rfl⟩
    rcases hp with hp | hp <;>
      simp [handle_request, hm, hp, read_body_as_string, hb, hraw, hrs]

/-- Witness for C9: concrete requests exercising the 405, 404, 400, 204 and
200 mappings. -/
theorem handle_request_spec_witness :
    handle_request (fun _ => none) (fun _ _ => Except.ok Json.null)
      { httpMethod := "GET", path := "/", body := Except.ok "" } =
      some (create_status_response 405) ∧
    handle_request (fun _ => none) (fun _ _ => Except.ok Json.null)
      { httpMethod := "POST", path := "/other", body := Except.ok "" } =
      some (create_status_response 404) ∧
    handle_request (fun _ => none) (fun _ _ => Except.ok Json.null)
      { httpMethod := "POST", path := "/", body := Except.error () } =
      some (create_status_response 400) ∧
    handle_request
      (fun _ => some (Json.obj [("jsonrpc", Json.str "2.0"),
        ("method", Json.str "m")]))
      (fun _ _ => Except.ok Json.null)
      { httpMethod := "POST", path := "/rpc", body := Except.ok "x" } =
      some (create_status_response 204) ∧
    handle_request (fun _ => none) (fun _ _ => Except.ok Json.null)
      { httpMethod := "POST", path := "/", body := Except.ok "x" } =
      some (create_json_response
        ((RpcResponse.ofError (RpcError.new ErrorCode.ParseError)
          Json.null).toJson.render)) :=
  ⟨(handle_request_spec (fun _ => none) (fun _ _ => Except.ok Json.null)
      { httpMethod := "GET", path := "/", body := Except.ok "" }).1
      (by decide) (fun _ _ => Except.ok Json.null) (Except.ok ""),
   (handle_request_spec (fun _ => none) (fun _ _ => Except.ok Json.null)
      { httpMethod := "POST", path := "/other", body := Except.ok "" }).2.1
      rfl (by decide) (by decide) (fun _ _ => Except.ok Json.null) (Except.ok ""),
   (handle_request_spec (fun _ => none) (fun _ _ => Except.ok Json.null)
      { httpMethod := "POST", path := "/", body := Except.error () }).2.2.1
      rfl (Or.inr rfl) rfl (fun _ _ => Except.ok Json.null),
   ((handle_request_spec
      (fun _ => some (Json.obj [("jsonrpc", Json.str "2.0"),
        ("method", Json.str "m")]))
      (fun _ _ => Except.ok Json.null)
      { httpMethod := "POST", path := "/rpc", body := Except.ok "x" }).2.2.2.1
      "x" rfl (Or.inl rfl) rfl rfl).1,
   ((handle_request_spec (fun _ => none) (fun _ _ => Except.ok Json.null)
      { httpMethod := "POST", path := "/", body := Except.ok "x" }).2.2.2.2
      "x" ((RpcResponse.ofError (RpcError.new ErrorCode.ParseError)
        Json.null).toJson.render)
      rfl (Or.inr rfl) rfl rfl (by decide)).1⟩
